import Mathlib

/-!
# Verification of the `draw_triangle` rendering pipeline

Shallow embedding of `src/draw_triangle.cc` (a minimal OpenGL "hello
triangle" program) over the reals, together with theorems settling the
specification claims about its transform library, model state, render
loop and application driver.

Conventions: `GLfloat` values are embedded as real numbers; Eigen
matrices become `Matrix (Fin n) (Fin n) ℝ`; the external GLFW/GLEW/GL
services are abstracted by an environment record recording the outcome
of each external call.
-/

open Real Matrix

noncomputable section

/-- 3-vectors (`Eigen::Vector3f`). -/
abbrev Vec3 := Fin 3 → ℝ

/-- 3×3 matrices (`Eigen::Matrix3f`). -/
abbrev Mat3 := Matrix (Fin 3) (Fin 3) ℝ

/-- 4×4 matrices (`Eigen::Matrix4f`). -/
abbrev Mat4 := Matrix (Fin 4) (Fin 4) ℝ

/-- `Eigen::Vector3f::UnitZ()`. -/
def unitZ : Vec3 := ![0, 0, 1]

/-- `offset.homogeneous()`: append a homogeneous coordinate 1. -/
def homogeneous (v : Vec3) : Fin 4 → ℝ := ![v 0, v 1, v 2, 1]

/-- `ComputeTranslation` (src/draw_triangle.cc lines 166-171): the identity
matrix with column 3 replaced by the homogeneous offset. -/
def ComputeTranslation (offset : Vec3) : Mat4 :=
  (1 : Mat4).updateColumn 3 (homogeneous offset)

/-- `Eigen::AngleAxisf(angle, axis).matrix()` as used at line 175-177:
Eigen's angle-axis to rotation-matrix conversion is the Rodrigues formula
applied to the axis exactly as given (Eigen assumes, and does not check or
enforce, that the axis is unit length). -/
def angleAxisToRotationMatrix (axis : Vec3) (angle : ℝ) : Mat3 :=
  let c := Real.cos angle
  let s := Real.sin angle
  let x := axis 0
  let y := axis 1
  let z := axis 2
  Matrix.of
    ![![(1 - c) * x * x + c, (1 - c) * x * y - s * z, (1 - c) * x * z + s * y],
      ![(1 - c) * x * y + s * z, (1 - c) * y * y + c, (1 - c) * y * z - s * x],
      ![(1 - c) * x * z - s * y, (1 - c) * y * z + s * x, (1 - c) * z * z + c]]

/-- `ComputeRotation` (src/draw_triangle.cc lines 173-180): the identity
4×4 matrix with its upper-left 3×3 block replaced by the angle-axis
rotation matrix. -/
def ComputeRotation (axis : Vec3) (angle : ℝ) : Mat4 :=
  let rot3 := angleAxisToRotationMatrix axis angle
  Matrix.of
    ![![rot3 0 0, rot3 0 1, rot3 0 2, 0],
      ![rot3 1 0, rot3 1 1, rot3 1 2, 0],
      ![rot3 2 0, rot3 2 1, rot3 2 2, 0],
      ![0, 0, 0, 1]]

/-- The upper-left 3×3 block of a 4×4 matrix — the block of
`ComputeRotation`'s result written by `transformation.block(0, 0, 3, 3)`
(src/draw_triangle.cc line 178). -/
def upperLeftBlock (M : Mat4) : Mat3 :=
  Matrix.of ![![M 0 0, M 0 1, M 0 2],
              ![M 1 0, M 1 1, M 1 2],
              ![M 2 0, M 2 1, M 2 2]]

/-- `ComputeProjectionMatrix` general/frustum form (src/draw_triangle.cc
lines 183-200).  The source starts from the identity matrix and overwrites
(0,0), (1,1), (2,2), (0,2), (1,2), (2,3), (3,3), (3,2); the matrix below is
the resulting matrix with the surviving identity entries written out. -/
def ComputeProjectionMatrix (left right top bottom near far : ℝ) : Mat4 :=
  Matrix.of
    ![![2 * near / (right - left), 0, (right + left) / (right - left), 0],
      ![0, 2 * near / (top - bottom), (top + bottom) / (top - bottom), 0],
      ![0, 0, -(far + near) / (far - near), -2 * far * near / (far - near)],
      ![0, 0, -1, 0]]

/-- The denominators of the divisions performed inside
`ComputeProjectionMatrix` (src/draw_triangle.cc lines 191-196):
`right - left` (entries (0,0) and (0,2)), `top - bottom` (entries (1,1) and
(1,2)), `far - near` (entries (2,2) and (2,3)). -/
def projectionDenominators (left right top bottom near far : ℝ) : List ℝ :=
  [right - left, top - bottom, far - near]

/-- `ComputeProjectionMatrix` field-of-view form (src/draw_triangle.cc
lines 202-210).  Note the source uses the literal constant `3.1416f` for
pi. -/
def ComputeProjectionMatrixFov (field_of_view aspect near far : ℝ) : Mat4 :=
  let pi' := (3.1416 : ℝ)
  let top := near * Real.tan (pi' / 180 * field_of_view * 0.5)
  let bottom := -top
  let right := top * aspect
  let left := -right
  ComputeProjectionMatrix left right top bottom near far

/-- Modelled from the spec: the field-of-view construction exactly as
claim C2 words it, with the exact constant π in place of whatever constant
the implementation uses: `top = near·tan(π/180·field_of_view/2)`,
`bottom = -top`, `right = top·aspect_ratio`, `left = -right`, then the
general form at those bounds. -/
def fovSpecProjection (field_of_view aspect near far : ℝ) : Mat4 :=
  let top := near * Real.tan (Real.pi / 180 * field_of_view / 2)
  let bottom := -top
  let right := top * aspect
  let left := -right
  ComputeProjectionMatrix left right top bottom near far

/-- The `Model` class (src/draw_triangle.cc lines 122-160): orientation,
position, and a dynamically sized vertex matrix (`Eigen::MatrixXf`,
embedded as a list of rows). -/
structure Model where
  orientation : Vec3
  position : Vec3
  vertices : List (List ℝ)

/-- `Model::SetOrientation` (lines 133-135): full replacement of the
orientation field. -/
def Model.SetOrientation (m : Model) (orientation : Vec3) : Model :=
  { m with orientation := orientation }

/-- `Model::SetPosition` (lines 162-164): full replacement of the position
field. -/
def Model.SetPosition (m : Model) (position : Vec3) : Model :=
  { m with position := position }

/-- `Model::GetOrientation` (lines 147-149). -/
def Model.GetOrientation (m : Model) : Vec3 := m.orientation

/-- `Model::GetPosition` (lines 151-153). -/
def Model.GetPosition (m : Model) : Vec3 := m.position

/-- The model matrix computed inside `RenderScene`
(src/draw_triangle.cc lines 320-325):
`translation = ComputeTranslation(Vec3(0, 0, sin(0.5·angle) - 1))`,
`rotation = ComputeRotation(UnitZ, angle)`, `model = translation * rotation`. -/
def RenderSceneModelMatrix (angle : ℝ) : Mat4 :=
  let translation := ComputeTranslation ![0, 0, Real.sin (0.5 * angle) - 1]
  let rot := ComputeRotation unitZ angle
  translation * rot

/-- Names of the shader uniform variables referenced by `RenderScene`. -/
inductive UniformName where
  | model
  | view
  | projection
deriving DecidableEq

/-- Observable effects a call in this program can perform: the GL/GLFW
calls that appear in `RenderScene`, plus the `Model` setter calls that the
program could in principle perform (the `Model` class of lines 122-160
exposes them). -/
inductive Effect where
  | clearFrameBuffer
  | useProgram
  | getUniformLocation (name : UniformName)
  | printMatrix (value : Mat4)
  | uploadUniform (name : UniformName) (value : Mat4)
  | bindVertexArray (id : ℕ)
  | drawArrays (first count : ℕ)
  | setModelOrientation (v : Vec3)
  | setModelPosition (v : Vec3)

/-- Whether an effect is a `Model` setter call (`Model::SetOrientation` or
`Model::SetPosition`). -/
def Effect.isModelSetter : Effect → Bool
  | Effect.setModelOrientation _ => true
  | Effect.setModelPosition _ => true
  | _ => false

/-- The sequence of effects performed by one call to `RenderScene`
(src/draw_triangle.cc lines 304-343), transcribed statement by statement:
clear the framebuffer, use the shader program, get the three uniform
locations, compute the model matrix and print it, upload the model, view
(identity) and projection matrices, bind the vertex array, draw 3
vertices starting at index 0, unbind. -/
def renderSceneTrace (vertex_array_object_id : ℕ) (projection : Mat4)
    (angle : ℝ) : List Effect :=
  [Effect.clearFrameBuffer,
   Effect.useProgram,
   Effect.getUniformLocation UniformName.model,
   Effect.getUniformLocation UniformName.view,
   Effect.getUniformLocation UniformName.projection,
   Effect.printMatrix (RenderSceneModelMatrix angle),
   Effect.uploadUniform UniformName.model (RenderSceneModelMatrix angle),
   Effect.uploadUniform UniformName.view (1 : Mat4),
   Effect.uploadUniform UniformName.projection projection,
   Effect.bindVertexArray vertex_array_object_id,
   Effect.drawArrays 0 3,
   Effect.bindVertexArray 0]

/-- Outcomes of the external windowing/extension/shader services consumed
by `main` (src/draw_triangle.cc lines 347-437): whether `glfwInit`
succeeds, whether `glfwCreateWindow` returns a window, whether `glewInit`
returns `GLEW_OK`, the shader program id produced by the shader-program
service (0 means invalid), and the first frame index at which
`glfwWindowShouldClose` reports true (`none` if the user never closes —
window-close request or the Escape key via `KeyCallback`). -/
structure DriverEnv where
  glfwInitOk : Bool
  windowCreated : Bool
  glewInitOk : Bool
  shaderProgramId : ℕ
  closeAtFrame : Option ℕ

/-- The exit code of `main` (src/draw_triangle.cc lines 347-437) as a
function of the external-service outcomes: `-1` if `glfwInit` fails, `-1`
if window creation fails, `-1` if `glewInit` fails, `-1` if the shader
program id is 0; otherwise the render loop runs until the close condition
is observed and `main` returns 0 after teardown, and never exits (`none`)
if the close condition never arrives. -/
def mainExitCode (env : DriverEnv) : Option Int :=
  if !env.glfwInitOk then some (-1)
  else if !env.windowCreated then some (-1)
  else if !env.glewInitOk then some (-1)
  else if env.shaderProgramId = 0 then some (-1)
  else
    match env.closeAtFrame with
    | some _ => some 0
    | none => none

/-- An initialization failure in the sense of the spec's taxonomy:
windowing-library init, window creation, extension-loader init, or an
invalid (zero) shader program handle. -/
def InitializationFailure (env : DriverEnv) : Prop :=
  env.glfwInitOk = false ∨ env.windowCreated = false ∨
    env.glewInitOk = false ∨ env.shaderProgramId = 0

/-! ## Theorems settling the claims -/

/-- C10: `SetPosition` changes only the position field and
`SetOrientation` changes only the orientation field, leaving the other
pose field and the vertex data unchanged; `GetPosition` and
`GetOrientation` return exactly the stored vectors. -/
theorem model_setters_spec (m : Model) (v : Vec3) :
    (m.SetPosition v).orientation = m.orientation ∧
    (m.SetPosition v).vertices = m.vertices ∧
    (m.SetPosition v).GetPosition = v ∧
    (m.SetOrientation v).position = m.position ∧
    (m.SetOrientation v).vertices = m.vertices ∧
    (m.SetOrientation v).GetOrientation = v ∧
    m.GetPosition = m.position ∧
    m.GetOrientation = m.orientation :=
  ⟨rfl, rfl, rfl, rfl, rfl, rfl, rfl, rfl⟩

/-- C5: every projection matrix produced by the system — the general-form
constructor for any arguments, and the FOV-form constructor that delegates
to it — has last row exactly `[0, 0, -1, 0]`. -/
theorem projection_last_row :
    (∀ l r t b n f : ℝ, ∀ j : Fin 4,
       ComputeProjectionMatrix l r t b n f 3 j = ![0, 0, -1, 0] j) ∧
    (∀ fov aspect n f : ℝ, ∀ j : Fin 4,
       ComputeProjectionMatrixFov fov aspect n f 3 j = ![0, 0, -1, 0] j) := by
  refine ⟨fun l r t b n f j => ?_, fun fov aspect n f j => ?_⟩ <;>
    fin_cases j <;> rfl

/-- C1: for frustum parameters with `near > 0`, `far > near`,
`left ≠ right`, `top ≠ bottom`, the general-form projection matrix has
exactly the closed-form entries, and every entry outside the eight listed
positions is zero. -/
theorem computeProjectionMatrix_entries (l r t b n f : ℝ)
    (hn : 0 < n) (hnf : n < f) (hlr : l ≠ r) (htb : t ≠ b) :
    ComputeProjectionMatrix l r t b n f 0 0 = 2 * n / (r - l) ∧
    ComputeProjectionMatrix l r t b n f 1 1 = 2 * n / (t - b) ∧
    ComputeProjectionMatrix l r t b n f 2 2 = -(f + n) / (f - n) ∧
    ComputeProjectionMatrix l r t b n f 0 2 = (r + l) / (r - l) ∧
    ComputeProjectionMatrix l r t b n f 1 2 = (t + b) / (t - b) ∧
    ComputeProjectionMatrix l r t b n f 2 3 = -2 * f * n / (f - n) ∧
    ComputeProjectionMatrix l r t b n f 3 2 = -1 ∧
    ComputeProjectionMatrix l r t b n f 3 3 = 0 ∧
    ∀ i j : Fin 4,
      (i, j) ∉ ([(0, 0), (1, 1), (2, 2), (0, 2), (1, 2), (2, 3), (3, 2), (3, 3)] :
          List (Fin 4 × Fin 4)) →
      ComputeProjectionMatrix l r t b n f i j = 0 := by
  refine ⟨rfl, rfl, rfl, rfl, rfl, rfl, rfl, rfl, ?_⟩
  intro i j hij
  fin_cases i <;> fin_cases j <;>
    simp_all [ComputeProjectionMatrix, Matrix.vecHead, Matrix.vecTail]

/-- Witness for C1 at the concrete frustum
`(left, right, top, bottom, near, far) = (-1, 1, 1, -1, 1, 2)`. -/
theorem computeProjectionMatrix_entries_witness :
    (0 : ℝ) < 1 ∧ (1 : ℝ) < 2 ∧ ((-1 : ℝ) ≠ 1) ∧ ((1 : ℝ) ≠ -1) ∧
    (ComputeProjectionMatrix (-1) 1 1 (-1) 1 2 0 0 = 2 * 1 / (1 - -1) ∧
     ComputeProjectionMatrix (-1) 1 1 (-1) 1 2 1 1 = 2 * 1 / (1 - -1) ∧
     ComputeProjectionMatrix (-1) 1 1 (-1) 1 2 2 2 = -(2 + 1) / (2 - 1) ∧
     ComputeProjectionMatrix (-1) 1 1 (-1) 1 2 0 2 = (1 + -1) / (1 - -1) ∧
     ComputeProjectionMatrix (-1) 1 1 (-1) 1 2 1 2 = (1 + -1) / (1 - -1) ∧
     ComputeProjectionMatrix (-1) 1 1 (-1) 1 2 2 3 = -2 * 2 * 1 / (2 - 1) ∧
     ComputeProjectionMatrix (-1) 1 1 (-1) 1 2 3 2 = -1 ∧
     ComputeProjectionMatrix (-1) 1 1 (-1) 1 2 3 3 = 0 ∧
     ∀ i j : Fin 4,
       (i, j) ∉ ([(0, 0), (1, 1), (2, 2), (0, 2), (1, 2), (2, 3), (3, 2), (3, 3)] :
           List (Fin 4 × Fin 4)) →
       ComputeProjectionMatrix (-1) 1 1 (-1) 1 2 i j = 0) :=
  ⟨by norm_num, by norm_num, by norm_num, by norm_num,
   computeProjectionMatrix_entries (-1) 1 1 (-1) 1 2
     (by norm_num) (by norm_num) (by norm_num) (by norm_num)⟩

/-- C7: `main` returns 0 exactly when every initialization step succeeds
and the user-initiated close condition eventually arrives; it returns -1
for every initialization failure (windowing-library init, window creation,
extension-loader init, or a zero shader-program handle); and no exit code
other than 0 and -1 is possible. -/
theorem mainExitCode_spec :
    (∀ env : DriverEnv, mainExitCode env = some 0 ↔
       env.glfwInitOk = true ∧ env.windowCreated = true ∧
       env.glewInitOk = true ∧ env.shaderProgramId ≠ 0 ∧
       env.closeAtFrame.isSome = true) ∧
    (∀ env : DriverEnv, InitializationFailure env →
       mainExitCode env = some (-1)) ∧
    (∀ (env : DriverEnv) (c : Int), mainExitCode env = some c →
       c = 0 ∨ c = -1) := by
  refine ⟨fun env => ?_, fun env h => ?_, fun env c h => ?_⟩ <;>
    rcases env with ⟨g, w, e, s, cl⟩ <;>
    cases g <;> cases w <;> cases e <;> rcases cl with _ | k <;>
    by_cases hs : s = 0 <;>
    simp_all [mainExitCode, InitializationFailure]

/-- Witness for C7 at a concrete environment: `glfwInit` fails, so `main`
exits with -1. -/
theorem mainExitCode_spec_witness :
    mainExitCode ⟨false, true, true, 1, some 0⟩ = some (-1) :=
  mainExitCode_spec.2.1 ⟨false, true, true, 1, some 0⟩ (Or.inl rfl)

/-- C6 (amended): the render loop does not mutate any `Model` entity — the
effect trace of a frame contains no `Model` setter call, for every vertex
array id, projection matrix and angle. -/
theorem renderScene_no_model_setter (vao : ℕ) (p : Mat4) (angle : ℝ) :
    (renderSceneTrace vao p angle).any Effect.isModelSetter = false := rfl

/-- Counterexample to C6 as stated: at the concrete frame with vertex
array id 1, projection matrix 1 and angle 0, the render loop performs no
`Model` setter call, so it does not mutate a Model entity via its setters
on that frame iteration. -/
theorem renderScene_mutates_model_counterexample :
    ¬ ((renderSceneTrace 1 (1 : Mat4) 0).any Effect.isModelSetter = true) := by
  intro h
  simp only [renderSceneTrace, List.any_cons, List.any_nil,
    Effect.isModelSetter, Bool.or_false, Bool.or_self] at h
  exact Bool.noConfusion h

/-- C3: for every angle, the model matrix computed per frame equals
`ComputeTranslation(Vec3(0, 0, sin(0.5·angle) - 1)) × ComputeRotation(UnitZ, angle)`
and is the matrix uploaded to the `model` uniform in the frame's effect
trace; at angle 0 the rotation is the identity matrix and the model
matrix's translation column is `(0, 0, -1, 1)`. -/
theorem renderSceneModelMatrix_spec :
    (∀ angle : ℝ, RenderSceneModelMatrix angle =
       ComputeTranslation ![0, 0, Real.sin (0.5 * angle) - 1] *
         ComputeRotation unitZ angle) ∧
    (∀ (vao : ℕ) (p : Mat4) (angle : ℝ),
       Effect.uploadUniform UniformName.model (RenderSceneModelMatrix angle) ∈
         renderSceneTrace vao p angle) ∧
    ComputeRotation unitZ 0 = 1 ∧
    (∀ i : Fin 4, RenderSceneModelMatrix 0 i 3 = ![0, 0, -1, 1] i) := by
  have hrot : ComputeRotation unitZ 0 = 1 := by
    ext i j
    fin_cases i <;> fin_cases j <;>
      simp [ComputeRotation, angleAxisToRotationMatrix, unitZ,
        Matrix.one_apply, Real.cos_zero, Real.sin_zero,
        Matrix.vecHead, Matrix.vecTail]
  refine ⟨fun angle => rfl, fun vao p angle => ?_, hrot, fun i => ?_⟩
  · simp [renderSceneTrace]
  · rw [show RenderSceneModelMatrix 0 =
        ComputeTranslation ![0, 0, Real.sin (0.5 * 0) - 1] *
          ComputeRotation unitZ 0 from rfl, hrot, mul_one]
    fin_cases i <;>
      simp [ComputeTranslation, Matrix.updateColumn_apply, homogeneous,
        Real.sin_zero]

/-- Counterexample to C4 as stated: the hypotheses `near > 0`, `near < far`
alone do not rule out division by zero.  At
`(left, right, top, bottom, near, far) = (0, 0, 1, 0, 1, 2)` both
hypotheses hold, yet the denominator `right - left` of the divisions
producing entries (0,0) and (0,2) is zero. -/
theorem projection_finiteness_counterexample :
    (0 : ℝ) < 1 ∧ (1 : ℝ) < 2 ∧
    (0 : ℝ) ∈ projectionDenominators 0 0 1 0 1 2 := by
  refine ⟨by norm_num, by norm_num, ?_⟩
  simp [projectionDenominators]

/-- C4 (amended): for inputs with `near > 0`, `near < far`, and
additionally `left ≠ right` and `top ≠ bottom`, every division performed
in the construction of the projection matrix has a non-zero denominator. -/
theorem projection_denominators_nonzero (l r t b n f : ℝ)
    (hn : 0 < n) (hnf : n < f) (hlr : l ≠ r) (htb : t ≠ b) :
    ∀ d ∈ projectionDenominators l r t b n f, d ≠ 0 := by
  intro d hd
  simp only [projectionDenominators, List.mem_cons, List.not_mem_nil,
    or_false] at hd
  rcases hd with h | h | h <;> subst h
  · exact sub_ne_zero.mpr (Ne.symm hlr)
  · exact sub_ne_zero.mpr htb
  · exact sub_ne_zero.mpr (ne_of_gt hnf)

/-- Witness for the amended C4 at the frustum used by `main`,
`(left, right, top, bottom, near, far) = (-320, 320, 240, -240, 0.1, 10)`:
the denominator `right - left` of that frustum, an element of
`projectionDenominators`, is non-zero. -/
theorem projection_denominators_nonzero_witness :
    (0 : ℝ) < 0.1 ∧ (0.1 : ℝ) < 10 ∧ ((-320 : ℝ) ≠ 320) ∧
      ((240 : ℝ) ≠ -240) ∧ ((320 : ℝ) - -320 ≠ 0) :=
  ⟨by norm_num, by norm_num, by norm_num, by norm_num,
   projection_denominators_nonzero (-320) 320 240 (-240) 0.1 10
     (by norm_num) (by norm_num) (by norm_num) (by norm_num)
     (320 - -320) (by simp [projectionDenominators])⟩

/-- Counterexample to C2 as stated: the implementation uses the constant
`3.1416`, not π.  At `field_of_view = 90`, `aspect_ratio = 1`, `near = 1`,
`far = 2` (which satisfy the claim's preconditions), the matrix returned
by the FOV form differs from the matrix the claim prescribes (built with
the exact π), because `tan(3.1416/4) > tan(π/4) = 1`. -/
theorem fov_pi_counterexample :
    (0 : ℝ) < 90 ∧ (90 : ℝ) < 180 ∧ (0 : ℝ) < 1 ∧ (0 : ℝ) < 1 ∧ (1 : ℝ) < 2 ∧
    ComputeProjectionMatrixFov 90 1 1 2 ≠ fovSpecProjection 90 1 1 2 := by
  refine ⟨by norm_num, by norm_num, by norm_num, by norm_num, by norm_num, ?_⟩
  have hpi4 : Real.pi / 4 < (0.7854 : ℝ) := by linarith [Real.pi_lt_d4]
  have hmem1 : Real.pi / 4 ∈ Set.Ioo (-(Real.pi / 2)) (Real.pi / 2) :=
    ⟨by linarith [Real.pi_pos], by linarith [Real.pi_pos]⟩
  have hmem2 : (0.7854 : ℝ) ∈ Set.Ioo (-(Real.pi / 2)) (Real.pi / 2) :=
    ⟨by linarith [Real.pi_pos], by linarith [Real.pi_gt_three]⟩
  have ht : 1 < Real.tan 0.7854 := by
    have h := Real.strictMonoOn_tan hmem1 hmem2 hpi4
    rwa [Real.tan_pi_div_four] at h
  have ht0 : (0 : ℝ) < Real.tan 0.7854 := by linarith
  have ht0' : Real.tan 0.7854 ≠ 0 := ne_of_gt ht0
  have e1 : ComputeProjectionMatrixFov 90 1 1 2 1 1 = 1 / Real.tan 0.7854 := by
    have harg : (3.1416 : ℝ) / 180 * 90 * 0.5 = 0.7854 := by norm_num
    simp only [ComputeProjectionMatrixFov, harg, ComputeProjectionMatrix]
    simp
    field_simp
    ring
  have e2 : fovSpecProjection 90 1 1 2 1 1 = 1 := by
    have harg : Real.pi / 180 * 90 / 2 = Real.pi / 4 := by ring
    simp only [fovSpecProjection, harg, Real.tan_pi_div_four,
      ComputeProjectionMatrix]
    norm_num
  intro hEq
  have h11 : ComputeProjectionMatrixFov 90 1 1 2 1 1 =
      fovSpecProjection 90 1 1 2 1 1 := by rw [hEq]
  rw [e1, e2] at h11
  have hlt : 1 / Real.tan 0.7854 < 1 := by
    rw [div_lt_one ht0]
    exact ht
  linarith

/-- C2 (amended): for `0 < field_of_view < 180`, `aspect_ratio > 0`,
`0 < near < far`, the FOV-form constructor derives
`top = near·tan(3.1416/180·field_of_view/2)` (with the implementation's
constant 3.1416 in place of π), `bottom = -top`, `right = top·aspect_ratio`,
`left = -right`, and returns exactly the general form at those bounds. -/
theorem fov_projection_delegates (fov aspect n f : ℝ)
    (h1 : 0 < fov) (h2 : fov < 180) (h3 : 0 < aspect)
    (h4 : 0 < n) (h5 : n < f) :
    ComputeProjectionMatrixFov fov aspect n f =
      ComputeProjectionMatrix
        (-(n * Real.tan (3.1416 / 180 * fov / 2) * aspect))
        (n * Real.tan (3.1416 / 180 * fov / 2) * aspect)
        (n * Real.tan (3.1416 / 180 * fov / 2))
        (-(n * Real.tan (3.1416 / 180 * fov / 2)))
        n f := by
  have harg : (3.1416 : ℝ) / 180 * fov * 0.5 = 3.1416 / 180 * fov / 2 := by
    ring
  simp only [ComputeProjectionMatrixFov, harg]

/-- Witness for the amended C2 at
`(field_of_view, aspect_ratio, near, far) = (90, 1, 0.1, 10)`. -/
theorem fov_projection_delegates_witness :
    ComputeProjectionMatrixFov 90 1 0.1 10 =
      ComputeProjectionMatrix
        (-(0.1 * Real.tan (3.1416 / 180 * 90 / 2) * 1))
        (0.1 * Real.tan (3.1416 / 180 * 90 / 2) * 1)
        (0.1 * Real.tan (3.1416 / 180 * 90 / 2))
        (-(0.1 * Real.tan (3.1416 / 180 * 90 / 2)))
        0.1 10 :=
  fov_projection_delegates 90 1 0.1 10 (by norm_num) (by norm_num)
    (by norm_num) (by norm_num) (by norm_num)

/-- C8: for every angle, `ComputeRotation(UnitZ, angle)` composed with
`ComputeRotation(UnitZ, -angle)` is the identity matrix (exactly, in the
real-number model). -/
theorem rotation_invertible (angle : ℝ) :
    ComputeRotation unitZ angle * ComputeRotation unitZ (-angle) = 1 := by
  have hsc := Real.sin_sq_add_cos_sq angle
  ext i j
  fin_cases i <;> fin_cases j <;>
    simp [ComputeRotation, angleAxisToRotationMatrix, unitZ, Matrix.mul_apply,
      Fin.sum_univ_four, Real.sin_neg, Real.cos_neg, Matrix.one_apply,
      Matrix.vecHead, Matrix.vecTail] <;>
    first | ring1 | linear_combination hsc

/-- C9: `ComputeRotation` uses the caller's axis without normalizing it.
For every unit-length axis and any angle, the upper-left 3×3 block of the
result is a proper rotation (orthogonal with determinant 1); but there
exists a non-zero, non-unit axis and an angle for which that block is not
orthogonal. -/
theorem rotation_axis_not_normalized :
    (∀ (a : Vec3) (θ : ℝ), a 0 ^ 2 + a 1 ^ 2 + a 2 ^ 2 = 1 →
       (upperLeftBlock (ComputeRotation a θ))ᵀ *
           upperLeftBlock (ComputeRotation a θ) = 1 ∧
         (upperLeftBlock (ComputeRotation a θ)).det = 1) ∧
    (∃ (a : Vec3) (θ : ℝ), a ≠ 0 ∧ a 0 ^ 2 + a 1 ^ 2 + a 2 ^ 2 ≠ 1 ∧
       (upperLeftBlock (ComputeRotation a θ))ᵀ *
         upperLeftBlock (ComputeRotation a θ) ≠ 1) := by
  have hblock : ∀ (a : Vec3) (θ : ℝ),
      upperLeftBlock (ComputeRotation a θ) = angleAxisToRotationMatrix a θ := by
    intro a θ
    ext i j
    fin_cases i <;> fin_cases j <;> rfl
  constructor
  · intro a θ ha
    rw [hblock]
    have hsc := Real.sin_sq_add_cos_sq θ
    constructor
    · ext i j
      fin_cases i <;> fin_cases j <;>
        simp [angleAxisToRotationMatrix, Matrix.mul_apply,
          Matrix.transpose_apply, Fin.sum_univ_three, Matrix.one_apply,
          Matrix.vecHead, Matrix.vecTail]
      · linear_combination ((1 - Real.cos θ) ^ 2 * (a 0) ^ 2 + Real.sin θ ^ 2) *
          ha + (1 - (a 0) ^ 2) * hsc
      · linear_combination ((1 - Real.cos θ) ^ 2 * (a 0) * (a 1)) * ha -
          ((a 0) * (a 1)) * hsc
      · linear_combination ((1 - Real.cos θ) ^ 2 * (a 0) * (a 2)) * ha -
          ((a 0) * (a 2)) * hsc
      · linear_combination ((1 - Real.cos θ) ^ 2 * (a 0) * (a 1)) * ha -
          ((a 0) * (a 1)) * hsc
      · linear_combination ((1 - Real.cos θ) ^ 2 * (a 1) ^ 2 + Real.sin θ ^ 2) *
          ha + (1 - (a 1) ^ 2) * hsc
      · linear_combination ((1 - Real.cos θ) ^ 2 * (a 1) * (a 2)) * ha -
          ((a 1) * (a 2)) * hsc
      · linear_combination ((1 - Real.cos θ) ^ 2 * (a 0) * (a 2)) * ha -
          ((a 0) * (a 2)) * hsc
      · linear_combination ((1 - Real.cos θ) ^ 2 * (a 1) * (a 2)) * ha -
          ((a 1) * (a 2)) * hsc
      · linear_combination ((1 - Real.cos θ) ^ 2 * (a 2) ^ 2 + Real.sin θ ^ 2) *
          ha + (1 - (a 2) ^ 2) * hsc
    · rw [Matrix.det_fin_three]
      simp only [angleAxisToRotationMatrix, Matrix.of_apply, Matrix.cons_val',
        Matrix.cons_val_zero, Matrix.cons_val_one, Matrix.head_cons,
        Matrix.empty_val', Matrix.cons_val_fin_one, Matrix.head_fin_const,
        Matrix.cons_val_two, Matrix.tail_cons]
      linear_combination (Real.cos θ ^ 2 * (1 - Real.cos θ) +
        Real.cos θ * Real.sin θ ^ 2 +
        Real.sin θ ^ 2 * (1 - Real.cos θ) *
          (a 0 ^ 2 + a 1 ^ 2 + a 2 ^ 2 + 1)) * ha + hsc
  · refine ⟨![0, 0, 2], Real.pi / 2, ?_, ?_, ?_⟩
    · intro h0
      have h2 := congrFun h0 2
      norm_num at h2
    · norm_num
    · intro hEq
      have h22 := Matrix.ext_iff.mpr hEq 2 2
      simp [upperLeftBlock, ComputeRotation, angleAxisToRotationMatrix,
        Matrix.mul_apply, Matrix.transpose_apply, Fin.sum_univ_three,
        Matrix.one_apply, Real.cos_pi_div_two, Real.sin_pi_div_two,
        Matrix.vecHead, Matrix.vecTail] at h22
      norm_num at h22

/-- Witness for C9 at the concrete unit axis `UnitZ` and angle 0: the
unit-length hypothesis holds and the rotation block is orthogonal with
determinant 1. -/
theorem rotation_axis_not_normalized_witness :
    ((![0, 0, 1] : Vec3) 0 ^ 2 + (![0, 0, 1] : Vec3) 1 ^ 2 +
        (![0, 0, 1] : Vec3) 2 ^ 2 = 1) ∧
    ((upperLeftBlock (ComputeRotation ![0, 0, 1] 0))ᵀ *
         upperLeftBlock (ComputeRotation ![0, 0, 1] 0) = 1 ∧
       (upperLeftBlock (ComputeRotation ![0, 0, 1] 0)).det = 1) :=
  ⟨by norm_num, rotation_axis_not_normalized.1 ![0, 0, 1] 0 (by norm_num)⟩
